import Mathlib

/-!
Verification development for the feedback classification pipeline
(Cloudflare Worker, `src/index.ts` / the worker source shipped next to
`schema.sql`).  The pipeline has two subsystems:

* a Classifier (`classifyFeedback` plus the batch loop `processFeedback`)
  that asks a generative oracle for a `(sentiment, urgency)` JSON object,
  extracts the first-brace-to-last-brace span, parses it, falls back to a
  deterministic keyword classification when extraction fails, and finally
  normalizes both fields into closed enums;

* a Summary Extractor (`generateSummary` and the dashboard parser
  `parseSummary` / `extractBullets`) that unwraps the oracle's
  shape-polymorphic response and parses the narrative summary into four
  bounded sections.

The embedding below models JavaScript values reachable in this code as a
JSON-like inductive `JVal`, models `JSON.parse` / `JSON.stringify`
explicitly, and models each regular expression of the source as a
backtracking matcher with JavaScript semantics (leftmost match, lazy and
greedy quantifier ordering, zero-width lookaheads, `g`-flag scan loops).
-/

namespace FeedbackPipeline

/-! ## Character-level helpers (JavaScript `\s`, `\d`, case folding) -/

/-- JavaScript whitespace as used by `\s`, `trim` and friends (ASCII part). -/
def isWsJS (c : Char) : Bool :=
  c == ' ' || c == '\t' || c == '\n' || c == '\r' ||
  c == Char.ofNat 11 || c == Char.ofNat 12

/-- JavaScript `\d`. -/
def isDigitJS (c : Char) : Bool :=
  '0' ≤ c && c ≤ '9'

/-- Left brace character, kept symbolic. -/
def lbrace : Char := Char.ofNat 123

/-- Right brace character, kept symbolic. -/
def rbrace : Char := Char.ofNat 125

/-- Case-insensitive character comparison (ASCII folding, as the `i` flag
behaves on the ASCII header names used in this code). -/
def ciEq (a b : Char) : Bool :=
  a.toLower == b.toLower

/-- `String.prototype.toLowerCase` restricted to the ASCII folding the
keyword tests rely on. -/
def toLowerJS (s : String) : String :=
  String.mk (s.data.map Char.toLower)

/-- Exact prefix test on character lists. -/
def isPrefixOfL : List Char → List Char → Bool
  | [], _ => true
  | _ :: _, [] => false
  | a :: as, b :: bs => a == b && isPrefixOfL as bs

/-- Substring containment on character lists (`String.prototype.includes`). -/
def containsL (needle : List Char) : List Char → Bool
  | [] => isPrefixOfL needle []
  | c :: cs => isPrefixOfL needle (c :: cs) || containsL needle cs

/-- `hay.includes(needle)`. -/
def includesStr (hay needle : String) : Bool :=
  containsL needle.data hay.data

/-- `String.prototype.trim` (both ends, JavaScript whitespace). -/
def trimJS (s : String) : String :=
  String.mk (((s.data.dropWhile isWsJS).reverse.dropWhile isWsJS).reverse)

/-- Helper for `split('\n')`: accumulate the current line (reversed). -/
def splitNLAux (acc : List Char) : List Char → List String
  | [] => [String.mk acc.reverse]
  | c :: cs =>
    if c == '\n' then String.mk acc.reverse :: splitNLAux [] cs
    else splitNLAux (c :: acc) cs

/-- `text.split('\n')` with JavaScript semantics (keeps empty pieces,
including a trailing one). -/
def splitNL (s : String) : List String :=
  splitNLAux [] s.data

/-! ## JavaScript/JSON values

Every value that flows through this worker (oracle responses, parsed
classification candidates, envelope objects) is JSON-shaped, so we model
them with one inductive.  Numbers keep their source lexeme: the pipeline
never does arithmetic on them, it only tests truthiness and strict
equality against string enum literals. -/

inductive JVal where
  | jnull : JVal
  | jbool : Bool → JVal
  | jnum : String → JVal
  | jstr : String → JVal
  | jarr : List JVal → JVal
  | jobj : List (String × JVal) → JVal
deriving Repr

/-! ## `JSON.parse`

A fuel-indexed recursive-descent JSON parser.  The fuel is always
instantiated with the input length plus one, which suffices because each
recursive call consumes at least one character first. -/

/-- Decode one hexadecimal digit (code-point arithmetic). -/
def hexDigitVal (c : Char) : Option Nat :=
  let n := c.toNat
  if 48 ≤ n && n ≤ 57 then some (n - 48)
  else if 97 ≤ n && n ≤ 102 then some (n - 87)
  else if 65 ≤ n && n ≤ 70 then some (n - 55)
  else none

/-- Skip JSON whitespace. -/
def skipWsJson (l : List Char) : List Char :=
  l.dropWhile (fun c => c == ' ' || c == '\t' || c == '\n' || c == '\r')

/-- Parse the body of a JSON string after the opening quote. -/
def parseStrBody : Nat → List Char → List Char → Option (String × List Char)
  | 0, _, _ => none
  | _ + 1, [], _ => none
  | fuel + 1, c :: rest, acc =>
    if c == '"' then some (String.mk acc.reverse, rest)
    else if c == '\\' then
      match rest with
      | [] => none
      | e :: rest2 =>
        if e == '"' then parseStrBody fuel rest2 ('"' :: acc)
        else if e == '\\' then parseStrBody fuel rest2 ('\\' :: acc)
        else if e == '/' then parseStrBody fuel rest2 ('/' :: acc)
        else if e == 'b' then parseStrBody fuel rest2 (Char.ofNat 8 :: acc)
        else if e == 'f' then parseStrBody fuel rest2 (Char.ofNat 12 :: acc)
        else if e == 'n' then parseStrBody fuel rest2 ('\n' :: acc)
        else if e == 'r' then parseStrBody fuel rest2 ('\r' :: acc)
        else if e == 't' then parseStrBody fuel rest2 ('\t' :: acc)
        else if e == 'u' then
          (match rest2 with
           | h1 :: h2 :: h3 :: h4 :: rest3 =>
             (match hexDigitVal h1, hexDigitVal h2, hexDigitVal h3, hexDigitVal h4 with
              | some a, some b, some c2, some d =>
                parseStrBody fuel rest3 (Char.ofNat (a * 4096 + b * 256 + c2 * 16 + d) :: acc)
              | _, _, _, _ => none)
           | _ => none)
        else none
    else if c.toNat < 32 then none
    else parseStrBody fuel rest (c :: acc)

/-- Parse a JSON number, returning its lexeme. -/
def parseNumLex (l : List Char) : Option (String × List Char) :=
  let signLen : Nat := match l with
    | c :: _ => if c == '-' then 1 else 0
    | [] => 0
  let afterSign := l.drop signLen
  let intRun := afterSign.takeWhile isDigitJS
  let intOk : Bool :=
    match intRun with
    | [] => false
    | [_] => true
    | c :: _ :: _ => !(c == '0')
  if !intOk then none
  else
    let afterInt := afterSign.drop intRun.length
    let fracRun : List Char :=
      match afterInt with
      | '.' :: r => '.' :: r.takeWhile isDigitJS
      | _ => []
    let fracOk : Bool :=
      match fracRun with
      | [] => true
      | [_] => false
      | _ => true
    if !fracOk then none
    else
      let afterFrac := afterInt.drop fracRun.length
      let expTail : Option (List Char) :=
        match afterFrac with
        | e :: r =>
          if e == 'e' || e == 'E' then
            let signR : List Char := match r with
              | s :: _ => if s == '+' || s == '-' then [s] else []
              | [] => []
            let digs := (r.drop signR.length).takeWhile isDigitJS
            if digs.isEmpty then none else some (e :: signR ++ digs)
          else some []
        | [] => some []
      match expTail with
      | none => none
      | some erun =>
        let lex := (l.take signLen) ++ intRun ++ fracRun ++ erun
        some (String.mk lex, l.drop lex.length)

/-- Insert a parsed object member with JavaScript semantics: a repeated key
keeps its first position but takes the latest value. -/
def insertField (fields : List (String × JVal)) (k : String) (v : JVal) :
    List (String × JVal) :=
  match fields with
  | [] => [(k, v)]
  | (k0, v0) :: rest =>
    if k0 == k then (k0, v) :: rest else (k0, v0) :: insertField rest k v

mutual

def parseVal : Nat → List Char → Option (JVal × List Char)
  | 0, _ => none
  | fuel + 1, l =>
    match skipWsJson l with
    | [] => none
    | c :: rest =>
      if c == lbrace then parseObjFields fuel rest true []
      else if c == '[' then parseArrElems fuel rest true []
      else if c == '"' then
        (match parseStrBody (rest.length + 1) rest [] with
         | some (s, r) => some (JVal.jstr s, r)
         | none => none)
      else if c == 't' then
        (match rest with
         | 'r' :: 'u' :: 'e' :: r => some (JVal.jbool true, r)
         | _ => none)
      else if c == 'f' then
        (match rest with
         | 'a' :: 'l' :: 's' :: 'e' :: r => some (JVal.jbool false, r)
         | _ => none)
      else if c == 'n' then
        (match rest with
         | 'u' :: 'l' :: 'l' :: r => some (JVal.jnull, r)
         | _ => none)
      else
        match parseNumLex (c :: rest) with
        | some (lex, r) => some (JVal.jnum lex, r)
        | none => none

def parseObjFields : Nat → List Char → Bool → List (String × JVal) →
    Option (JVal × List Char)
  | 0, _, _, _ => none
  | fuel + 1, l, first, acc =>
    match skipWsJson l with
    | [] => none
    | c :: rest =>
      if c == rbrace then
        (if first then some (JVal.jobj acc, rest) else none)
      else if c == ',' then
        (if first then none
         else
          match skipWsJson rest with
          | '"' :: r2 =>
            (match parseStrBody (r2.length + 1) r2 [] with
             | some (k, r3) => parseObjMember fuel r3 acc k
             | none => none)
          | _ => none)
      else if first && c == '"' then
        (match parseStrBody (rest.length + 1) rest [] with
         | some (k, r3) => parseObjMember fuel r3 acc k
         | none => none)
      else none

def parseObjMember : Nat → List Char → List (String × JVal) → String →
    Option (JVal × List Char)
  | 0, _, _, _ => none
  | fuel + 1, l, acc, k =>
    match skipWsJson l with
    | ':' :: r =>
      match parseVal fuel r with
      | some (v, r2) => parseObjRest fuel r2 (insertField acc k v)
      | none => none
    | _ => none

def parseObjRest : Nat → List Char → List (String × JVal) →
    Option (JVal × List Char)
  | 0, _, _ => none
  | fuel + 1, l, acc =>
    match skipWsJson l with
    | c :: rest =>
      if c == rbrace then some (JVal.jobj acc, rest)
      else if c == ',' then
        (match skipWsJson rest with
         | '"' :: r2 =>
           (match parseStrBody (r2.length + 1) r2 [] with
            | some (k, r3) => parseObjMember fuel r3 acc k
            | none => none)
         | _ => none)
      else none
    | [] => none

def parseArrElems : Nat → List Char → Bool → List JVal →
    Option (JVal × List Char)
  | 0, _, _, _ => none
  | fuel + 1, l, first, acc =>
    match skipWsJson l with
    | [] => none
    | c :: rest =>
      if c == ']' then
        (if first then some (JVal.jarr acc.reverse, rest) else none)
      else if c == ',' then
        (if first then none
         else
          match parseVal fuel rest with
          | some (v, r2) => parseArrRest fuel r2 (v :: acc)
          | none => none)
      else if first then
        (match parseVal fuel (c :: rest) with
         | some (v, r2) => parseArrRest fuel r2 (v :: acc)
         | none => none)
      else none

def parseArrRest : Nat → List Char → List JVal → Option (JVal × List Char)
  | 0, _, _ => none
  | fuel + 1, l, acc =>
    match skipWsJson l with
    | c :: rest =>
      if c == ']' then some (JVal.jarr acc.reverse, rest)
      else if c == ',' then
        (match parseVal fuel rest with
         | some (v, r2) => parseArrRest fuel r2 (v :: acc)
         | none => none)
      else none
    | [] => none

end

/-- `JSON.parse`: parse a complete document; trailing garbage is an error. -/
def jsonParse (s : String) : Option JVal :=
  match parseVal (s.data.length + 1) s.data with
  | some (v, rest) => if (skipWsJson rest).isEmpty then some v else none
  | none => none

/-! ## `JSON.stringify` -/

/-- Hex digit character for string escapes. -/
def hexChar (n : Nat) : Char :=
  Char.ofNat (if n < 10 then 48 + n else 87 + n)

/-- Escape one character inside a JSON string literal. -/
def escChar (c : Char) : List Char :=
  if c == '"' then ['\\', '"']
  else if c == '\\' then ['\\', '\\']
  else if c == '\n' then ['\\', 'n']
  else if c == '\r' then ['\\', 'r']
  else if c == '\t' then ['\\', 't']
  else if c == Char.ofNat 8 then ['\\', 'b']
  else if c == Char.ofNat 12 then ['\\', 'f']
  else if c.toNat < 32 then
    ['\\', 'u', '0', '0', hexChar (c.toNat / 16), hexChar (c.toNat % 16)]
  else [c]

/-- Serialize a string with JSON escaping, quotes included. -/
def escJSON (s : String) : String :=
  String.mk ('"' :: s.data.flatMap escChar ++ ['"'])

mutual

def jstringify : JVal → String
  | JVal.jnull => "null"
  | JVal.jbool true => "true"
  | JVal.jbool false => "false"
  | JVal.jnum lex => lex
  | JVal.jstr s => escJSON s
  | JVal.jarr elems => "[" ++ stringifyArr elems ++ "]"
  | JVal.jobj fields =>
    String.mk [lbrace] ++ stringifyFields fields ++ String.mk [rbrace]

def stringifyArr : List JVal → String
  | [] => ""
  | [v] => jstringify v
  | v :: v2 :: rest => jstringify v ++ "," ++ stringifyArr (v2 :: rest)

def stringifyFields : List (String × JVal) → String
  | [] => ""
  | [(k, v)] => escJSON k ++ ":" ++ jstringify v
  | (k, v) :: f2 :: rest =>
    escJSON k ++ ":" ++ jstringify v ++ "," ++ stringifyFields (f2 :: rest)

end

/-- Indentation for `JSON.stringify(x, null, 2)`. -/
def indentStr (n : Nat) : String :=
  String.mk (List.replicate n ' ')

mutual

def jstringifyPretty : Nat → JVal → String
  | _, JVal.jnull => "null"
  | _, JVal.jbool true => "true"
  | _, JVal.jbool false => "false"
  | _, JVal.jnum lex => lex
  | _, JVal.jstr s => escJSON s
  | _, JVal.jarr [] => "[]"
  | lvl, JVal.jarr (e :: es) =>
    "[\n" ++ prettyArr (lvl + 2) (e :: es) ++ "\n" ++ indentStr lvl ++ "]"
  | _, JVal.jobj [] => String.mk [lbrace, rbrace]
  | lvl, JVal.jobj (f :: fs) =>
    String.mk [lbrace] ++ "\n" ++ prettyFields (lvl + 2) (f :: fs) ++ "\n" ++
      indentStr lvl ++ String.mk [rbrace]

def prettyArr : Nat → List JVal → String
  | _, [] => ""
  | lvl, [v] => indentStr lvl ++ jstringifyPretty lvl v
  | lvl, v :: v2 :: rest =>
    indentStr lvl ++ jstringifyPretty lvl v ++ ",\n" ++ prettyArr lvl (v2 :: rest)

def prettyFields : Nat → List (String × JVal) → String
  | _, [] => ""
  | lvl, [(k, v)] => indentStr lvl ++ escJSON k ++ ": " ++ jstringifyPretty lvl v
  | lvl, (k, v) :: f2 :: rest =>
    indentStr lvl ++ escJSON k ++ ": " ++ jstringifyPretty lvl v ++ ",\n" ++
      prettyFields lvl (f2 :: rest)

end

/-! ## Property access, truthiness, `String(...)` coercion -/

/-- JavaScript property read `v[k]`: `none` models `undefined`.  Reads on
primitives autobox and yield `undefined`; reads on `null` are modelled
separately at their use sites (they throw). -/
def jGet (v : JVal) (k : String) : Option JVal :=
  match v with
  | JVal.jobj fields =>
    match fields.find? (fun f => f.1 == k) with
    | some f => some f.2
    | none => none
  | _ => none

/-- Does this number lexeme denote zero (the only falsy number here)? -/
def zeroLex (lex : String) : Bool :=
  ((lex.data.takeWhile (fun c => !(c == 'e' || c == 'E'))).filter isDigitJS).all
    (fun c => c == '0')

/-- JavaScript truthiness of a value. -/
def jTruthyV : JVal → Bool
  | JVal.jnull => false
  | JVal.jbool b => b
  | JVal.jnum lex => !zeroLex lex
  | JVal.jstr s => !(s == "")
  | JVal.jarr _ => true
  | JVal.jobj _ => true

/-- Truthiness of a property read (`undefined` is falsy). -/
def jTruthyO : Option JVal → Bool
  | none => false
  | some v => jTruthyV v

/-- Is this property read a specific string (strict `===` against a string
literal, as `Array.prototype.includes` performs)? -/
def fieldIsStr (v : Option JVal) (s : String) : Bool :=
  match v with
  | some (JVal.jstr t) => t == s
  | _ => false

/-- Detect `null` (property access on it throws). -/
def isJNull : JVal → Bool
  | JVal.jnull => true
  | _ => false

mutual

/-- JavaScript `String(v)` coercion, used by `Array.prototype.join`. -/
def jsToStr : JVal → String
  | JVal.jnull => "null"
  | JVal.jbool true => "true"
  | JVal.jbool false => "false"
  | JVal.jnum lex => lex
  | JVal.jstr s => s
  | JVal.jarr elems => jsToStrList elems
  | JVal.jobj _ => "[object Object]"

def jsToStrList : List JVal → String
  | [] => ""
  | [JVal.jnull] => ""
  | [v] => jsToStr v
  | JVal.jnull :: v2 :: rest => "," ++ jsToStrList (v2 :: rest)
  | v :: v2 :: rest => jsToStr v ++ "," ++ jsToStrList (v2 :: rest)

end

/-! ## Backtracking regex pieces

Every regular expression in the source is translated into an explicit
matcher with JavaScript semantics.  A matcher prefix is a function
`List Char → List (List Char)` returning, in backtracking priority order,
every remainder the prefix can leave; quantifier alternatives appear in
the exact order the JS engine explores them (greedy: longer first; the
optional-class prefers consuming). -/

/-- Sequential composition of matcher prefixes (`.bind` keeps priority). -/
def mThen (p q : List Char → List (List Char)) :
    List Char → List (List Char) :=
  fun cs => (p cs).flatMap q

/-- Case-insensitive literal. -/
def mLitCI : List Char → List Char → List (List Char)
  | [], cs => [cs]
  | _ :: _, [] => []
  | p :: ps, c :: cs => if ciEq p c then mLitCI ps cs else []

/-- Literal as a matcher prefix. -/
def mLit (pat : String) : List Char → List (List Char) :=
  fun cs => mLitCI pat.data cs

/-- Optional character class `[..]?` — greedy, so the consuming branch
comes first. -/
def mOptClass (cls : Char → Bool) : List Char → List (List Char)
  | [] => [[]]
  | c :: cs => if cls c then [cs, c :: cs] else [c :: cs]

/-- Greedy `\s*`: all remainders, longest-consumption first. -/
def wsStarCands : List Char → List (List Char)
  | [] => [[]]
  | c :: cs => if isWsJS c then wsStarCands cs ++ [c :: cs] else [c :: cs]

/-- Optional `\n?` — greedy. -/
def mNlOpt : List Char → List (List Char)
  | [] => [[]]
  | c :: cs => if c == '\n' then [cs, c :: cs] else [c :: cs]

/-- Try candidate remainders in priority order. -/
def firstSomeList {α : Type} : List (List Char) → (List Char → Option α) →
    Option α
  | [], _ => none
  | r :: rs, f =>
    match f r with
    | some x => some x
    | none => firstSomeList rs f

/-- Zero-width lookahead `(?=\n\*\*|$)` of the section regexes. -/
def lookSection (r : List Char) : Bool :=
  match r with
  | [] => true
  | '\n' :: '*' :: '*' :: _ => true
  | _ => false

/-- The bullet-marker class `[•\*\-\+]`. -/
def isBulletChar (c : Char) : Bool :=
  c == '•' || c == '*' || c == '-' || c == '+'

/-- Zero-width lookahead `(?=\n[•\*\-\+]|\n\n|$)` of the bullet regex. -/
def lookBullet (r : List Char) : Bool :=
  match r with
  | [] => true
  | '\n' :: c :: _ => isBulletChar c || c == '\n'
  | _ => false

/-- Does `\d+[\.\)]` match a prefix of `r`? (used inside a lookahead). -/
def numThenPunct (r : List Char) : Bool :=
  let run := r.takeWhile isDigitJS
  !run.isEmpty &&
    (match r.drop run.length with
     | c :: _ => c == '.' || c == ')'
     | [] => false)

/-- Zero-width lookahead `(?=\n\d+[\.\)]|\n\n|$)` of the numbered regex. -/
def lookNumbered (r : List Char) : Bool :=
  match r with
  | [] => true
  | '\n' :: rest =>
    (match rest with
     | '\n' :: _ => true
     | _ => numThenPunct rest)
  | _ => false

/-- Lazy `([\s\S]*?)` up to a lookahead: shortest capture first; returns
the capture and the remainder at the lookahead position. -/
def capAnyFrom (look : List Char → Bool) : List Char →
    Option (List Char × List Char)
  | [] => if look [] then some ([], []) else none
  | c :: r2 =>
    if look (c :: r2) then some ([], c :: r2)
    else
      match capAnyFrom look r2 with
      | some (cap, rest) => some (c :: cap, rest)
      | none => none

/-- Lazy `(.+?)` with the `s` flag (dot matches newline): at least one
character, then shortest capture satisfying the lookahead. -/
def capAnyPlus (look : List Char → Bool) : List Char →
    Option (List Char × List Char)
  | [] => none
  | c :: r2 =>
    match capAnyFrom look r2 with
    | some (cap, rest) => some (c :: cap, rest)
    | none => none

/-- Lazy `(.+?)` without the `s` flag: the dot refuses `'\n'`. -/
def capNoNLFrom (look : List Char → Bool) : List Char →
    Option (List Char × List Char)
  | [] => if look [] then some ([], []) else none
  | c :: r2 =>
    if look (c :: r2) then some ([], c :: r2)
    else if c == '\n' then none
    else
      match capNoNLFrom look r2 with
      | some (cap, rest) => some (c :: cap, rest)
      | none => none

/-- One-or-more variant of `capNoNLFrom`. -/
def capNoNLPlus (look : List Char → Bool) : List Char →
    Option (List Char × List Char)
  | [] => none
  | c :: r2 =>
    if c == '\n' then none
    else
      match capNoNLFrom look r2 with
      | some (cap, rest) => some (c :: cap, rest)
      | none => none

/-- Leftmost-match search: try the matcher at every start position, in
order, the way the JS engine scans. -/
def searchFirst {α : Type} (m : List Char → Option α) : List Char → Option α
  | [] => m []
  | c :: cs =>
    match m (c :: cs) with
    | some x => some x
    | none => searchFirst m cs

/-! ## Section-parser regexes (`parseSummary`) -/

/-- `[:\*]?` between a bold header name and its closing stars. -/
def optColonStar : List Char → List (List Char) :=
  mOptClass (fun c => c == ':' || c == '*')

/-- `[:\-]?` after a plain-text header name. -/
def optColonDash : List Char → List (List Char) :=
  mOptClass (fun c => c == ':' || c == '-')

/-- Prefix `\*\*NAME[:\*]?\*\*\s*\n?` of the bold header patterns. -/
def boldHeaderPre (nameM : List Char → List (List Char)) :
    List Char → List (List Char) :=
  mThen (mLit "**")
    (mThen nameM
      (mThen optColonStar
        (mThen (mLit "**") (mThen wsStarCands mNlOpt))))

/-- Prefix `NAME[:\-]?\s*\n?` of the plain header patterns. -/
def plainHeaderPre (nameM : List Char → List (List Char)) :
    List Char → List (List Char) :=
  mThen nameM (mThen optColonDash (mThen wsStarCands mNlOpt))

/-- Match one header pattern at a fixed position: run the prefix, then the
lazy capture bounded by the section lookahead. -/
def matchHeaderAt (pre : List Char → List (List Char))
    (cap : List Char → Option (List Char × List Char))
    (cs : List Char) : Option (List Char) :=
  firstSomeList (pre cs) (fun r =>
    match cap r with
    | some (c, _) => some c
    | none => none)

/-- Whole-string search for one header pattern, returning group 1. -/
def headerSearch (pre : List Char → List (List Char))
    (cap : List Char → Option (List Char × List Char))
    (s : String) : Option String :=
  match searchFirst (matchHeaderAt pre cap) s.data with
  | some c => some (String.mk c)
  | none => none

/-- `Key\s*Themes` name matcher. -/
def nameKeyThemes : List Char → List (List Char) :=
  mThen (mLit "key") (mThen wsStarCands (mLit "themes"))

/-- `Top\s*3\s*Themes` name matcher. -/
def nameTop3Themes : List Char → List (List Char) :=
  mThen (mLit "top")
    (mThen wsStarCands (mThen (mLit "3") (mThen wsStarCands (mLit "themes"))))

/-- `Critical\s*Issues` name matcher. -/
def nameCriticalIssues : List Char → List (List Char) :=
  mThen (mLit "critical") (mThen wsStarCands (mLit "issues"))

/-- Headline: the four alternatives of the source, tried with `||`. -/
def findHeadlineCap (s : String) : Option String :=
  match headerSearch (boldHeaderPre (mLit "summary")) (capAnyPlus lookSection) s with
  | some c => some c
  | none =>
    match headerSearch (boldHeaderPre (mLit "headline")) (capAnyPlus lookSection) s with
    | some c => some c
    | none =>
      match headerSearch (plainHeaderPre (mLit "summary")) (capAnyPlus lookSection) s with
      | some c => some c
      | none =>
        headerSearch (plainHeaderPre (mLit "headline")) (capAnyPlus lookSection) s

/-- Themes section text: four alternatives, empty string when none match. -/
def themesSectionText (s : String) : String :=
  match headerSearch (boldHeaderPre nameKeyThemes) (capAnyFrom lookSection) s with
  | some c => c
  | none =>
    match headerSearch (boldHeaderPre nameTop3Themes) (capAnyFrom lookSection) s with
    | some c => c
    | none =>
      match headerSearch (plainHeaderPre nameKeyThemes) (capAnyFrom lookSection) s with
      | some c => c
      | none =>
        match headerSearch (plainHeaderPre nameTop3Themes) (capAnyFrom lookSection) s with
        | some c => c
        | none => ""

/-- Critical-issues section text: two alternatives. -/
def issuesSectionText (s : String) : String :=
  match headerSearch (boldHeaderPre nameCriticalIssues) (capAnyFrom lookSection) s with
  | some c => c
  | none =>
    match headerSearch (plainHeaderPre nameCriticalIssues) (capAnyFrom lookSection) s with
    | some c => c
    | none => ""

/-- Recommendation section text: two alternatives. -/
def recSectionText (s : String) : String :=
  match headerSearch (boldHeaderPre (mLit "recommendation")) (capAnyFrom lookSection) s with
  | some c => c
  | none =>
    match headerSearch (plainHeaderPre (mLit "recommendation")) (capAnyFrom lookSection) s with
    | some c => c
    | none => ""

/-! ## `extractBullets` -/

/-- One attempt of `[•\*\-\+]\s*(.+?)(?=\n[•\*\-\+]|\n\n|$)` at a fixed
position; returns (capture, remainder after the match). -/
def bulletMatchAt (cs : List Char) : Option (List Char × List Char) :=
  match cs with
  | [] => none
  | c :: rest =>
    if isBulletChar c then
      firstSomeList (wsStarCands rest) (capNoNLPlus lookBullet)
    else none

/-- Candidate remainders after `\d+[\.\)]`, greedy digit run first. -/
def numPunctCands (cs : List Char) : List (List Char) :=
  let run := cs.takeWhile isDigitJS
  (List.range run.length).filterMap (fun i =>
    match cs.drop (run.length - i) with
    | c :: rest => if c == '.' || c == ')' then some rest else none
    | [] => none)

/-- One attempt of `\d+[\.\)]\s*(.+?)(?=\n\d+[\.\)]|\n\n|$)` at a fixed
position. -/
def numberedMatchAt (cs : List Char) : Option (List Char × List Char) :=
  firstSomeList (numPunctCands cs) (fun afterPunct =>
    firstSomeList (wsStarCands afterPunct) (capNoNLPlus lookNumbered))

/-- The `while (bulletRegex.exec(text))` loop: repeated leftmost search,
resuming at `lastIndex` (the remainder after each match).  `fuel` is
instantiated with the text length plus one; every match consumes at least
two characters, so the fuel never runs out. -/
def bulletLoop : Nat → List Char → List String
  | 0, _ => []
  | fuel + 1, cs =>
    match searchFirst bulletMatchAt cs with
    | some (cap, rest) => trimJS (String.mk cap) :: bulletLoop fuel rest
    | none => []

/-- The `while (numberedRegex.exec(text))` loop. -/
def numberedLoop : Nat → List Char → List String
  | 0, _ => []
  | fuel + 1, cs =>
    match searchFirst numberedMatchAt cs with
    | some (cap, rest) => trimJS (String.mk cap) :: numberedLoop fuel rest
    | none => []

/-- All matches of the bullet pattern, trimmed, in scan order. -/
def bulletMatchesOf (text : String) : List String :=
  bulletLoop (text.data.length + 1) text.data

/-- All matches of the numbered pattern, trimmed, in scan order. -/
def numberedMatchesOf (text : String) : List String :=
  numberedLoop (text.data.length + 1) text.data

/-- `extractBullets` from the source: bullet matches, then numbered
matches; if both found nothing, split the text into trimmed non-empty
lines; finally drop empty entries. -/
def extractBullets (text : String) : List String :=
  let bullets := bulletMatchesOf text ++ numberedMatchesOf text
  let withFallback :=
    if bullets.isEmpty then
      ((splitNL text).map trimJS).filter (fun l => l.length != 0)
    else bullets
  withFallback.filter (fun b => b.length != 0)

/-! ## `parseSummary` -/

/-- The value object the section parser produces. -/
structure SummarySections where
  headline : String
  themes : List String
  criticalIssues : List String
  recommendation : List String
deriving Repr, DecidableEq

/-- `parseSummary` from the source: headline via the first matching
pattern (placeholder otherwise), bullets per section, then the 3/3/2
ceilings applied by `slice`. -/
def parseSummary (summaryText : String) : SummarySections :=
  { headline :=
      match findHeadlineCap summaryText with
      | some c => trimJS c
      | none => "No headline available"
    themes := (extractBullets (themesSectionText summaryText)).take 3
    criticalIssues := (extractBullets (issuesSectionText summaryText)).take 3
    recommendation := (extractBullets (recSectionText summaryText)).take 2 }

/-! ## Classifier (`classifyFeedback`) -/

/-- The closed sentiment enum of `ClassificationResult`. -/
inductive Sentiment where
  | positive
  | negative
  | neutral
deriving Repr, DecidableEq

/-- The closed urgency enum of `ClassificationResult`. -/
inductive Urgency where
  | high
  | medium
  | low
deriving Repr, DecidableEq

/-- Always fully populated classification value object. -/
structure ClassificationResult where
  sentiment : Sentiment
  urgency : Urgency
deriving Repr, DecidableEq

/-- The classification prompt string built around the feedback text. -/
def buildClassifyPrompt (text : String) : String :=
  "Analyze this customer feedback and classify it. Return ONLY a JSON object with \"sentiment\" (positive/negative/neutral) and \"urgency\" (high/medium/low).\n\nFeedback: \"" ++
  text ++
  "\"\n\nResponse format: \x7b\"sentiment\": \"positive|negative|neutral\", \"urgency\": \"high|medium|low\"\x7d"

/-- `responseText.match(/\{[\s\S]*\}/)`: the span from the first left
brace to the last right brace, when the last right brace lies strictly
after the first left brace. -/
def jsonSpanMatch (s : String) : Option String :=
  match List.findIdx? (fun c => c == lbrace) s.data,
        List.findIdx? (fun c => c == rbrace) s.data.reverse with
  | some i, some jr =>
    let j := s.data.length - 1 - jr
    if i < j then some (String.mk ((s.data.drop i).take (j + 1 - i))) else none
  | _, _ => none

/-- The `TypeError` message thrown by `response.response` when the oracle
call returned `null`. -/
def typeErrorNullResponse : String :=
  "TypeError: Cannot read properties of null (reading 'response')"

/-- `response.response || JSON.stringify(response)`: the oracle response
text, still as a JavaScript value (a truthy `response` field need not be a
string).  This read sits outside the try/catch, and property access on
`null` throws, so a returned `null` yields `none` — the thrown
`TypeError` — rather than any response text; other primitives autobox and
read as `undefined`, falling through to the stringify branch. -/
def responseTextVal (response : JVal) : Option JVal :=
  match response with
  | JVal.jnull => none
  | _ =>
    match jGet response "response" with
    | some v =>
      if jTruthyV v then some v else some (JVal.jstr (jstringify response))
    | none => some (JVal.jstr (jstringify response))

/-- Keyword fallback for sentiment (a string, as in the source). -/
def fallbackSentiment (text : String) : String :=
  let lowerText := toLowerJS text
  if includesStr lowerText "great" || includesStr lowerText "love" ||
      includesStr lowerText "excellent" then "positive"
  else if includesStr lowerText "bad" || includesStr lowerText "hate" ||
      includesStr lowerText "terrible" then "negative"
  else "neutral"

/-- Keyword fallback for urgency. -/
def fallbackUrgency (text : String) : String :=
  let lowerText := toLowerJS text
  if includesStr lowerText "urgent" || includesStr lowerText "asap" ||
      includesStr lowerText "critical" then "high"
  else if includesStr lowerText "soon" || includesStr lowerText "important" then
    "medium"
  else "low"

/-- The fallback classification candidate object. -/
def fallbackCandidate (text : String) : JVal :=
  JVal.jobj [("sentiment", JVal.jstr (fallbackSentiment text)),
             ("urgency", JVal.jstr (fallbackUrgency text))]

/-- The `classification` candidate after the try/catch of the source,
given the already-computed response text value: match a brace span in it
and `JSON.parse` it; any failure on that path (non-string response text,
no span, parse error) is caught and replaced by the keyword fallback. -/
def classifyCandidate (text : String) (responseText : JVal) : JVal :=
  match responseText with
  | JVal.jstr s =>
    (match jsonSpanMatch s with
     | some span =>
       (match jsonParse span with
        | some v => v
        | none => fallbackCandidate text)
     | none => fallbackCandidate text)
  | _ => fallbackCandidate text

/-- Membership test `['positive','negative','neutral'].includes(x)`. -/
def sentimentMember (v : Option JVal) : Bool :=
  fieldIsStr v "positive" || fieldIsStr v "negative" || fieldIsStr v "neutral"

/-- Membership test `['high','medium','low'].includes(x)`. -/
def urgencyMember (v : Option JVal) : Bool :=
  fieldIsStr v "high" || fieldIsStr v "medium" || fieldIsStr v "low"

/-- Final validation/normalization: keep an in-enum candidate field,
coerce anything else to `neutral` / `low`. -/
def normalizeClassification (cand : JVal) : ClassificationResult :=
  { sentiment :=
      if fieldIsStr (jGet cand "sentiment") "positive" then Sentiment.positive
      else if fieldIsStr (jGet cand "sentiment") "negative" then Sentiment.negative
      else if fieldIsStr (jGet cand "sentiment") "neutral" then Sentiment.neutral
      else Sentiment.neutral
    urgency :=
      if fieldIsStr (jGet cand "urgency") "high" then Urgency.high
      else if fieldIsStr (jGet cand "urgency") "medium" then Urgency.medium
      else if fieldIsStr (jGet cand "urgency") "low" then Urgency.low
      else Urgency.low }

/-- Everything `classifyFeedback` does after the oracle call returned:
`none` models the `TypeError` that the `response.response` read throws on
a returned `null` (it propagates, being outside the try/catch); every
other returned value flows through the total
extraction/fallback/normalization pipeline. -/
def classifyCore (text : String) (response : JVal) :
    Option ClassificationResult :=
  match responseTextVal response with
  | none => none
  | some rt => some (normalizeClassification (classifyCandidate text rt))

/-- `classifyFeedback`: the oracle call is awaited outside any try/catch,
so a failed invocation propagates, and so does the `TypeError` from the
`response.response` read on a returned `null`; any other returned
response goes through the total pipeline. -/
def classifyFeedback (oracle : String → Except String JVal) (text : String) :
    Except String ClassificationResult :=
  match oracle (buildClassifyPrompt text) with
  | Except.error e => Except.error e
  | Except.ok response =>
    match classifyCore text response with
    | some r => Except.ok r
    | none => Except.error typeErrorNullResponse

/-! ## Batch processing (`processFeedback`) -/

/-- A stored feedback item as the batch loop sees it. -/
structure Feedback where
  id : Nat
  content : String
deriving Repr, DecidableEq

/-- One entry of the `processed` result list. -/
structure ProcessedItem where
  id : Nat
  content : String
  sentiment : Sentiment
  urgency : Urgency
deriving Repr, DecidableEq

/-- The observable outcome of the batch loop: the `processed` list, the
per-item `errors` list, and the sentiment/urgency write-backs issued to
the store. -/
structure BatchOutcome where
  processed : List ProcessedItem
  errors : List (Nat × String)
  writes : List (Nat × ClassificationResult)
deriving Repr, DecidableEq

/-- `feedback.content.substring(0, 50) + '...'`. -/
def previewContent (content : String) : String :=
  content.take 50 ++ "..."

/-- The per-item loop of `processFeedback`: classify, write back and
record on success; catch and record the error on failure, never aborting
the siblings. -/
def processFeedback (oracle : String → Except String JVal) :
    List Feedback → BatchOutcome
  | [] => { processed := [], errors := [], writes := [] }
  | f :: fs =>
    let restOut := processFeedback oracle fs
    match classifyFeedback oracle f.content with
    | Except.ok c =>
      { processed :=
          { id := f.id, content := previewContent f.content,
            sentiment := c.sentiment, urgency := c.urgency } :: restOut.processed
        errors := restOut.errors
        writes := (f.id, c) :: restOut.writes }
    | Except.error e =>
      { processed := restOut.processed
        errors := (f.id, e) :: restOut.errors
        writes := restOut.writes }

/-! ## Summary extractor (`generateSummary`) -/

/-- `parsed.output` when it is truthy and an array. -/
def outputArrOf (parsed : JVal) : Option (List JVal) :=
  match jGet parsed "output" with
  | some v =>
    if jTruthyV v then
      match v with
      | JVal.jarr l => some l
      | _ => none
    else none
  | none => none

/-- `item.type === 'message' && item.content && Array.isArray(item.content)`. -/
def isMessageEntry (it : JVal) : Bool :=
  fieldIsStr (jGet it "type") "message" && jTruthyO (jGet it "content") &&
    (match jGet it "content" with
     | some (JVal.jarr _) => true
     | _ => false)

/-- The content blocks of a kept message entry. -/
def contentList (it : JVal) : List JVal :=
  match jGet it "content" with
  | some (JVal.jarr l) => l
  | _ => []

/-- `c.type === 'output_text' && c.text` (truthiness on the text). -/
def isTextBlock (c : JVal) : Bool :=
  fieldIsStr (jGet c "type") "output_text" && jTruthyO (jGet c "text")

/-- `c.text` coerced as `Array.prototype.join` would. -/
def textOf (c : JVal) : String :=
  match jGet c "text" with
  | some v => jsToStr v
  | none => ""

/-- The inner branch of the response unwrapping on the parsed value.
`none` models a thrown `TypeError` (property access on `null`, either on
the parsed value itself or on a `null` entry visited by a filter), which
the surrounding catch absorbs. -/
def unwrapParsed (parsed : JVal) : Option JVal :=
  if isJNull parsed then none
  else
    match outputArrOf parsed with
    | some items =>
      if items.any isJNull then none
      else
        let blocks := (items.filter isMessageEntry).flatMap contentList
        if blocks.any isJNull then none
        else
          let joined := String.join ((blocks.filter isTextBlock).map textOf)
          if joined == "" then some (JVal.jstr (jstringify parsed))
          else some (JVal.jstr joined)
    | none =>
      match jGet parsed "response" with
      | some r =>
        if jTruthyV r then some r else some (JVal.jstr (jstringify parsed))
      | none => some (JVal.jstr (jstringify parsed))

/-- The catch branch:
`typeof aiResponse === 'string' ? aiResponse : JSON.stringify(aiResponse)`. -/
def catchVal (aiResponse : JVal) : JVal :=
  match aiResponse with
  | JVal.jstr s => JVal.jstr s
  | v => JVal.jstr (jstringify v)

/-- The whole `summaryText` extraction of `generateSummary`: parse string
responses as JSON, unwrap the known envelope shapes in priority order,
fall back to the catch branch on any throw. -/
def extractSummaryText (aiResponse : JVal) : JVal :=
  match (match aiResponse with
         | JVal.jstr s => jsonParse s
         | v => some v) with
  | none => catchVal aiResponse
  | some parsed =>
    match unwrapParsed parsed with
    | some r => r
    | none => catchVal aiResponse

/-- One classified feedback row as projected for the summary prompt. -/
structure FeedbackRow where
  content : String
  sentiment : String
  urgency : String
deriving Repr, DecidableEq

/-- Projection of a row to the JSON object embedded in the prompt. -/
def rowToJVal (f : FeedbackRow) : JVal :=
  JVal.jobj [("content", JVal.jstr f.content),
             ("sentiment", JVal.jstr f.sentiment),
             ("urgency", JVal.jstr f.urgency)]

/-- The summary prompt around `JSON.stringify(feedbackData, null, 2)`. -/
def buildSummaryPrompt (rows : List FeedbackRow) : String :=
  let feedbackJson := jstringifyPretty 0 (JVal.jarr (rows.map rowToJVal))
  "Below is customer feedback collected from multiple channels (support, GitHub, Discord, social media).\n\nEach item includes sentiment and urgency labels.\n\nData:\n\n" ++
  feedbackJson ++
  "\n\nProduce a concise PM-facing summary with EXACTLY the following structure. Use the exact section headers shown:\n\n**Summary**\n\n[One sentence describing the single most critical product risk. Be specific about the risk and its impact.]\n\n**Key Themes**\n\n[Three bullet points synthesizing feedback into user problems. Focus on developer pain points, not feature requests. Avoid repeating similar wording across bullets.]\n\n**Critical Issues**\n\n[Maximum 3 bullet points focusing on root causes, not symptoms. Explain why these issues are blocking or risky. Use concrete examples when possible.]\n\n**Recommendation**\n\n[Maximum 2 bullet points that are opinionated and actionable. Suggest what to do first and what can wait. Be specific about actions, timelines, or priorities.]\n\nGuidelines:\n- Use the exact section headers: **Summary**, **Key Themes**, **Critical Issues**, **Recommendation**\n- Do NOT repeat phrases across sections\n- Do NOT use vague language like \"prioritize\" or \"address issues\" without specifics\n- Write as if this will be read by a Director of Product\n- Keep the entire response under 150 words\n- Focus on developer experience, runtime stability, deployment workflows, and tooling reliability"

/-- The outcome of one `generateSummary` invocation at its boundary. -/
inductive SummaryOutcome where
  | emptyBatch (date msg : String)
  | errorOut (e : String)
  | summary (date : String) (text : JVal) (count : Nat)
deriving Repr

/-- `generateSummary` over an already-queried batch of classified rows:
an empty batch is reported back before the oracle prompt is even built; a
failed oracle invocation surfaces as a top-level error; otherwise the
response is unwrapped into the summary text. -/
def generateSummary (oracle : String → Except String JVal)
    (rows : List FeedbackRow) : SummaryOutcome :=
  if rows.isEmpty then
    SummaryOutcome.emptyBatch "2026-01-18"
      "No processed feedback found for the specified date"
  else
    match oracle (buildSummaryPrompt rows) with
    | Except.error e => SummaryOutcome.errorOut e
    | Except.ok aiResponse =>
      SummaryOutcome.summary "2026-01-18" (extractSummaryText aiResponse)
        rows.length

/-! ## Concrete data used by closed theorems -/

/-- A batch of ten unclassified feedback items, as the `/process` query
returns them (ids and contents mirroring the seeded rows). -/
def sampleBatch : List Feedback :=
  [⟨1, "This product is amazing! It is so easy to use."⟩,
   ⟨2, "The app crashed three times today. This is urgent!"⟩,
   ⟨3, "The interface is okay, nothing special but it works."⟩,
   ⟨4, "I hate this service. It is terrible, refund ASAP!"⟩,
   ⟨5, "Great customer support, very helpful team."⟩,
   ⟨6, "The loading time is too slow. Please fix this soon."⟩,
   ⟨7, "Love the new features! Keep up the good work."⟩,
   ⟨8, "Critical bug: users cannot log in. Fix immediately!"⟩,
   ⟨9, "The design is nice but could use some improvements."⟩,
   ⟨10, "Best product I have ever used. Highly recommend!"⟩]

/-- The canonical summary template of the round-trip property,
instantiated with contents `H`, `A`, `B`, `C`, `D`. -/
def canonicalTemplate : String :=
  "**Summary**\nH\n\n**Key Themes**\n• A\n• B\n\n**Critical Issues**\n• C\n\n**Recommendation**\n• D"

/-- An oracle envelope whose `output` field is an (empty) array and whose
`response` field is a truthy string. -/
def emptyOutputEnvelope : JVal :=
  JVal.jobj [("output", JVal.jarr []), ("response", JVal.jstr "hi")]

/-- Modelled from the spec (claim C6 as stated): unwrap priority
output-array texts first, then — whenever those yield nothing — the
single `response` text field, then the stringified whole object. -/
def claimPriorityUnwrap (aiResponse : JVal) : JVal :=
  match (match aiResponse with
         | JVal.jstr s => jsonParse s
         | v => some v) with
  | none => catchVal aiResponse
  | some parsed =>
    let items := (outputArrOf parsed).getD []
    let blocks := (items.filter isMessageEntry).flatMap contentList
    let joined := String.join ((blocks.filter isTextBlock).map textOf)
    if !(joined == "") then JVal.jstr joined
    else
      match jGet parsed "response" with
      | some r => if jTruthyV r then r else JVal.jstr (jstringify parsed)
      | none => JVal.jstr (jstringify parsed)

/-! ## Claim theorems -/

/-- C1: for every input text and every oracle response value, whenever
the classifier returns a result (a returned `null` response instead
throws past it), that result has its sentiment in the closed three-value
enum and its urgency in the closed three-value enum; and the final
normalization coerces any candidate sentiment outside the enum to
`neutral` and any candidate urgency outside the enum to `low`. -/
theorem classifier_enum_and_coercion :
    (∀ (text : String) (response : JVal) (r : ClassificationResult),
        classifyCore text response = some r →
        r.sentiment ∈ [Sentiment.positive, Sentiment.negative, Sentiment.neutral] ∧
        r.urgency ∈ [Urgency.high, Urgency.medium, Urgency.low]) ∧
    (∀ cand : JVal, sentimentMember (jGet cand "sentiment") = false →
        (normalizeClassification cand).sentiment = Sentiment.neutral) ∧
    (∀ cand : JVal, urgencyMember (jGet cand "urgency") = false →
        (normalizeClassification cand).urgency = Urgency.low) := by
  refine ⟨?_, ?_, ?_⟩
  · intro text response r _
    obtain ⟨s, u⟩ := r
    cases s <;> cases u <;> simp
  · intro cand h
    simp only [sentimentMember, Bool.or_eq_false_iff] at h
    obtain ⟨⟨h1, h2⟩, h3⟩ := h
    simp [normalizeClassification, h1, h2]
  · intro cand h
    simp only [urgencyMember, Bool.or_eq_false_iff] at h
    obtain ⟨⟨h1, h2⟩, h3⟩ := h
    simp [normalizeClassification, h1, h2]

/-- Witness for C1: the classifier returns a result on a concrete
(empty-string) oracle response and that result is in-enum; an out-of-enum
sentiment string is coerced to `neutral` and an out-of-enum (here:
numeric) urgency is coerced to `low`. -/
theorem classifier_enum_and_coercion_witness :
    (({ sentiment := Sentiment.neutral, urgency := Urgency.low } :
          ClassificationResult).sentiment ∈
        [Sentiment.positive, Sentiment.negative, Sentiment.neutral] ∧
      ({ sentiment := Sentiment.neutral, urgency := Urgency.low } :
          ClassificationResult).urgency ∈
        [Urgency.high, Urgency.medium, Urgency.low]) ∧
    (normalizeClassification
        (JVal.jobj [("sentiment", JVal.jstr "angry"), ("urgency", JVal.jnum "5")])).sentiment =
      Sentiment.neutral ∧
    (normalizeClassification
        (JVal.jobj [("sentiment", JVal.jstr "angry"), ("urgency", JVal.jnum "5")])).urgency =
      Urgency.low :=
  ⟨classifier_enum_and_coercion.1 "meh" (JVal.jstr "")
      { sentiment := Sentiment.neutral, urgency := Urgency.low } rfl,
   classifier_enum_and_coercion.2.1 _ (by decide),
   classifier_enum_and_coercion.2.2 _ (by decide)⟩

/-- C2 counterexample: with the oracle unavailable for every item, a
batch of ten unclassified items yields zero processed results and ten
per-item errors — not ten fallback classifications with an empty errors
list as the claim states. -/
theorem oracle_down_batch_counterexample :
    sampleBatch.length = 10 ∧
    (processFeedback (fun _ => Except.error "Error: AI service unavailable")
        sampleBatch).processed.length = 0 ∧
    (processFeedback (fun _ => Except.error "Error: AI service unavailable")
        sampleBatch).errors.length = 10 := by
  decide

/-- Helper: on every non-null returned oracle response the classifier
produces a result — each branch of the response-text read yields a value
and the downstream extraction/fallback/normalization pipeline is total. -/
theorem classifyCore_isSome_of_ne_null (text : String) (response : JVal)
    (h : ¬ response = JVal.jnull) :
    (classifyCore text response).isSome = true := by
  cases response with
  | jnull => exact absurd rfl h
  | jbool b => rfl
  | jnum lex => rfl
  | jstr s => rfl
  | jarr elems => rfl
  | jobj fields =>
    cases hjg : jGet (JVal.jobj fields) "response" with
    | none => simp [classifyCore, responseTextVal, hjg]
    | some v =>
      cases htv : jTruthyV v <;>
        simp [classifyCore, responseTextVal, hjg, htv]

/-- C2 (amended): a failed oracle invocation propagates out of
`classifyFeedback` and is caught by the batch loop per item, which
records `(id, error)` and continues, so an all-failing oracle produces no
processed items, no write-backs, and one error per item; a returned
`null` response likewise throws (the `response.response` read is outside
the try/catch) and lands in the per-item errors; the keyword fallback
absorbs only malformed oracle responses — for every non-null returned
response, classification succeeds. -/
theorem oracle_down_propagates_per_item :
    (∀ (e : String) (batch : List Feedback),
        processFeedback (fun _ => Except.error e) batch =
          { processed := [], errors := batch.map (fun f => (f.id, e)),
            writes := [] }) ∧
    (∀ text : String,
        classifyFeedback (fun _ => Except.ok JVal.jnull) text =
          Except.error typeErrorNullResponse) ∧
    (∀ (response : JVal) (text : String), ¬ response = JVal.jnull →
        (classifyFeedback (fun _ => Except.ok response) text).isOk = true) := by
  refine ⟨?_, ?_, ?_⟩
  · intro e batch
    induction batch with
    | nil => rfl
    | cons f fs ih => simp [processFeedback, classifyFeedback, ih]
  · intro text
    rfl
  · intro response text h
    obtain ⟨r, hr⟩ :=
      Option.isSome_iff_exists.mp (classifyCore_isSome_of_ne_null text response h)
    simp [classifyFeedback, hr, Except.isOk, Except.toBool]

/-- Witness for C2 (amended): a one-item batch with a failing oracle, a
returned null response, and a returned non-null response, each at
concrete inputs. -/
theorem oracle_down_propagates_per_item_witness :
    processFeedback (fun _ => Except.error "Error: AI service unavailable")
        [⟨7, "Love the new features!"⟩] =
      { processed := [], errors := [(7, "Error: AI service unavailable")],
        writes := [] } ∧
    classifyFeedback (fun _ => Except.ok JVal.jnull) "Love the new features!" =
      Except.error typeErrorNullResponse ∧
    (classifyFeedback (fun _ => Except.ok (JVal.jstr ""))
        "Love the new features!").isOk = true :=
  ⟨oracle_down_propagates_per_item.1 "Error: AI service unavailable"
      [⟨7, "Love the new features!"⟩],
   oracle_down_propagates_per_item.2.1 "Love the new features!",
   oracle_down_propagates_per_item.2.2 (JVal.jstr "") "Love the new features!"
      (by intro h; cases h)⟩

/-- C3: the section parser is total with bounded output — every input
string yields at most three themes, at most three critical issues, at
most two recommendations, and when no headline pattern matches the
headline is the placeholder string; an absent section (all of its header
patterns miss, so its captured text is the empty string) degrades to the
empty list. -/
theorem parseSummary_total_bounded :
    ∀ s : String,
      (parseSummary s).themes.length ≤ 3 ∧
      (parseSummary s).criticalIssues.length ≤ 3 ∧
      (parseSummary s).recommendation.length ≤ 2 ∧
      (findHeadlineCap s = none →
        (parseSummary s).headline = "No headline available") ∧
      (themesSectionText s = "" → (parseSummary s).themes = []) ∧
      (issuesSectionText s = "" → (parseSummary s).criticalIssues = []) ∧
      (recSectionText s = "" → (parseSummary s).recommendation = []) := by
  have hE : extractBullets "" = [] := by decide
  intro s
  refine ⟨?_, ?_, ?_, ?_, ?_, ?_, ?_⟩
  · simp [parseSummary, List.length_take]
  · simp [parseSummary, List.length_take]
  · simp [parseSummary, List.length_take]
  · intro h
    simp [parseSummary, h]
  · intro h
    simp [parseSummary, h, hE]
  · intro h
    simp [parseSummary, h, hE]
  · intro h
    simp [parseSummary, h, hE]

/-- Witness for C3: the empty string matches no headline pattern and no
section header pattern, and produces the placeholder headline with
empty, in-bounds section lists. -/
theorem parseSummary_total_bounded_witness :
    (parseSummary "").themes.length ≤ 3 ∧
    (parseSummary "").criticalIssues.length ≤ 3 ∧
    (parseSummary "").recommendation.length ≤ 2 ∧
    (parseSummary "").headline = "No headline available" ∧
    (parseSummary "").themes = [] ∧
    (parseSummary "").criticalIssues = [] ∧
    (parseSummary "").recommendation = [] :=
  ⟨(parseSummary_total_bounded "").1,
   (parseSummary_total_bounded "").2.1,
   (parseSummary_total_bounded "").2.2.1,
   (parseSummary_total_bounded "").2.2.2.1 (by decide),
   (parseSummary_total_bounded "").2.2.2.2.1 (by decide),
   (parseSummary_total_bounded "").2.2.2.2.2.1 (by decide),
   (parseSummary_total_bounded "").2.2.2.2.2.2 (by decide)⟩

/-- C4: evaluating the parser on the canonical template shows the actual
output: the headline and the recommendation round-trip, but the bullet
pattern's lookahead `(?=\n[•\*\-\+]|\n\n|$)` rejects a bullet line that
is followed by a single newline at the end of a captured section, so
theme `B` is lost, and the critical-issues section (whose only bullet is
rejected for the same reason) falls back to line splitting, which keeps
the `• ` marker.  The claimed round-trip output `themes = [A, B]`,
`criticalIssues = [C]` is therefore not what the code produces on any
instantiation of the template. -/
theorem roundtrip_template_actual_output :
    parseSummary canonicalTemplate =
      { headline := "H", themes := ["A"], criticalIssues := ["• C"],
        recommendation := ["D"] } ∧
    ¬ parseSummary canonicalTemplate =
      { headline := "H", themes := ["A", "B"], criticalIssues := ["C"],
        recommendation := ["D"] } := by
  constructor
  · decide
  · decide

/-- C5: keyword fallback — a lower-cased text containing `love` and none
of `hate`, `bad`, `terrible` classifies as positive; one containing none
of the six sentiment keywords classifies as neutral; one containing none
of the five urgency keywords gets low urgency. -/
theorem fallback_keyword_rules :
    ∀ text : String,
      (includesStr (toLowerJS text) "love" = true →
       includesStr (toLowerJS text) "hate" = false →
       includesStr (toLowerJS text) "bad" = false →
       includesStr (toLowerJS text) "terrible" = false →
       fallbackSentiment text = "positive") ∧
      (includesStr (toLowerJS text) "great" = false →
       includesStr (toLowerJS text) "love" = false →
       includesStr (toLowerJS text) "excellent" = false →
       includesStr (toLowerJS text) "bad" = false →
       includesStr (toLowerJS text) "hate" = false →
       includesStr (toLowerJS text) "terrible" = false →
       fallbackSentiment text = "neutral") ∧
      (includesStr (toLowerJS text) "urgent" = false →
       includesStr (toLowerJS text) "asap" = false →
       includesStr (toLowerJS text) "critical" = false →
       includesStr (toLowerJS text) "soon" = false →
       includesStr (toLowerJS text) "important" = false →
       fallbackUrgency text = "low") := by
  intro text
  refine ⟨?_, ?_, ?_⟩
  · intro h1 h2 h3 h4
    simp [fallbackSentiment, h1]
  · intro h1 h2 h3 h4 h5 h6
    simp [fallbackSentiment, h1, h2, h3, h4, h5, h6]
  · intro h1 h2 h3 h4 h5
    simp [fallbackUrgency, h1, h2, h3, h4, h5]

/-- Witness for C5: concrete texts exercising each fallback rule. -/
theorem fallback_keyword_rules_witness :
    fallbackSentiment "We LOVE the new editor" = "positive" ∧
    fallbackSentiment "the interface is okay" = "neutral" ∧
    fallbackUrgency "the interface is okay" = "low" :=
  ⟨(fallback_keyword_rules "We LOVE the new editor").1
      (by decide) (by decide) (by decide) (by decide),
   (fallback_keyword_rules "the interface is okay").2.1
      (by decide) (by decide) (by decide) (by decide) (by decide) (by decide),
   (fallback_keyword_rules "the interface is okay").2.2
      (by decide) (by decide) (by decide) (by decide) (by decide)⟩

/-- C6 counterexample: for an envelope whose `output` field is an array
that yields no text and whose `response` field is a truthy string, the
code skips the `response` fallback and returns the stringified object,
while the claimed priority order (output texts, then `response`, then
stringify) would return the `response` text. -/
theorem unwrap_priority_counterexample :
    extractSummaryText emptyOutputEnvelope =
      JVal.jstr "\x7b\"output\":[],\"response\":\"hi\"\x7d" ∧
    claimPriorityUnwrap emptyOutputEnvelope = JVal.jstr "hi" ∧
    ¬ extractSummaryText emptyOutputEnvelope =
        claimPriorityUnwrap emptyOutputEnvelope := by
  refine ⟨rfl, rfl, ?_⟩
  have e1 : extractSummaryText emptyOutputEnvelope =
      JVal.jstr "\x7b\"output\":[],\"response\":\"hi\"\x7d" := rfl
  have e2 : claimPriorityUnwrap emptyOutputEnvelope = JVal.jstr "hi" := rfl
  rw [e1, e2]
  intro h
  injection h with h2
  exact absurd h2 (by decide)

/-- C6 (amended): the unwrapping is total and tries the output-array
shape first, but when that shape is present it commits to it — the result
is the concatenated block texts, or the stringified whole object when
they join to the empty string, and the `response` field is not consulted;
the `response` fallback applies only when the output-array shape is
absent; with neither shape the result is the stringified whole object,
and a plain non-JSON string yields itself. -/
theorem unwrap_priority_amended :
    (∀ (parsed : JVal) (items : List JVal),
        outputArrOf parsed = some items →
        items.any isJNull = false →
        ((items.filter isMessageEntry).flatMap contentList).any isJNull = false →
        String.join ((((items.filter isMessageEntry).flatMap contentList).filter
            isTextBlock).map textOf) = "" →
        unwrapParsed parsed = some (JVal.jstr (jstringify parsed))) ∧
    (∀ (parsed : JVal) (items : List JVal) (joined : String),
        outputArrOf parsed = some items →
        items.any isJNull = false →
        ((items.filter isMessageEntry).flatMap contentList).any isJNull = false →
        String.join ((((items.filter isMessageEntry).flatMap contentList).filter
            isTextBlock).map textOf) = joined →
        ¬ joined = "" →
        unwrapParsed parsed = some (JVal.jstr joined)) ∧
    (∀ (parsed : JVal) (r : JVal),
        outputArrOf parsed = none →
        jGet parsed "response" = some r →
        jTruthyV r = true →
        unwrapParsed parsed = some r) ∧
    (∀ parsed : JVal,
        ¬ parsed = JVal.jnull →
        outputArrOf parsed = none →
        jTruthyO (jGet parsed "response") = false →
        unwrapParsed parsed = some (JVal.jstr (jstringify parsed))) ∧
    (∀ s : String, jsonParse s = none →
        extractSummaryText (JVal.jstr s) = JVal.jstr s) := by
  refine ⟨?_, ?_, ?_, ?_, ?_⟩
  · intro parsed items h1 h2 h3 h4
    have hnn : isJNull parsed = false := by
      cases parsed <;> simp_all [outputArrOf, jGet, isJNull]
    simp only [unwrapParsed, hnn, h1, Bool.false_eq_true, if_false]
    simp only [h2, h3, h4, Bool.false_eq_true, if_false]
    simp
  · intro parsed items joined h1 h2 h3 h4 h5
    have hnn : isJNull parsed = false := by
      cases parsed <;> simp_all [outputArrOf, jGet, isJNull]
    simp only [unwrapParsed, hnn, h1, Bool.false_eq_true, if_false]
    simp only [h2, h3, h4, Bool.false_eq_true, if_false]
    simp [h5]
  · intro parsed r h1 h2 h3
    have hnn : isJNull parsed = false := by
      cases parsed <;> simp_all [jGet, isJNull]
    simp only [unwrapParsed, hnn, h1, h2, h3, Bool.false_eq_true, if_false]
    simp
  · intro parsed hn h1 h2
    have hnn : isJNull parsed = false := by
      cases parsed <;> simp_all [isJNull]
    cases hr : jGet parsed "response" with
    | none => simp [unwrapParsed, hnn, h1, hr]
    | some r =>
      have hf : jTruthyV r = false := by simpa [jTruthyO, hr] using h2
      simp [unwrapParsed, hnn, h1, hr, hf]
  · intro s h
    simp [extractSummaryText, h, catchVal]

/-- Witness for C6 (amended): the four shapes at concrete envelopes. -/
theorem unwrap_priority_amended_witness :
    unwrapParsed emptyOutputEnvelope =
      some (JVal.jstr "\x7b\"output\":[],\"response\":\"hi\"\x7d") ∧
    unwrapParsed (JVal.jobj [("output",
        JVal.jarr [JVal.jobj [("type", JVal.jstr "message"),
          ("content", JVal.jarr [JVal.jobj [("type", JVal.jstr "output_text"),
            ("text", JVal.jstr "S1")]])]])]) = some (JVal.jstr "S1") ∧
    unwrapParsed (JVal.jobj [("response", JVal.jstr "hi")]) =
      some (JVal.jstr "hi") ∧
    unwrapParsed (JVal.jobj [("foo", JVal.jstr "x")]) =
      some (JVal.jstr "\x7b\"foo\":\"x\"\x7d") ∧
    extractSummaryText (JVal.jstr "plain text") = JVal.jstr "plain text" :=
  ⟨unwrap_priority_amended.1 _ [] rfl rfl rfl rfl,
   unwrap_priority_amended.2.1 _ _ "S1" rfl rfl rfl rfl (by decide),
   unwrap_priority_amended.2.2.1 _ (JVal.jstr "hi") rfl rfl rfl,
   unwrap_priority_amended.2.2.2.1 _ (by intro h; cases h) rfl rfl,
   unwrap_priority_amended.2.2.2.2 "plain text" rfl⟩

/-- C7: an empty batch is reported back as the empty-batch outcome, and
the result does not depend on the oracle at all — the oracle is never
invoked. -/
theorem empty_batch_short_circuits :
    (∀ oracle : String → Except String JVal,
        generateSummary oracle [] =
          SummaryOutcome.emptyBatch "2026-01-18"
            "No processed feedback found for the specified date") ∧
    (∀ o1 o2 : String → Except String JVal,
        generateSummary o1 [] = generateSummary o2 []) := by
  exact ⟨fun _ => rfl, fun _ _ => rfl⟩

/-- C8 counterexample: on the empty feedback text the classifier does not
fail at all — there is no emptiness check — it runs the ordinary pipeline
and returns a fully-populated result. -/
theorem empty_text_no_invalid_input_counterexample :
    classifyFeedback (fun _ => Except.ok (JVal.jstr "")) "" =
      Except.ok { sentiment := Sentiment.neutral, urgency := Urgency.low } ∧
    (classifyFeedback (fun _ => Except.ok (JVal.jstr "")) "").isOk = true := by
  exact ⟨rfl, rfl⟩

/-- C8 (amended): the classifier performs no input validation — for every
feedback text, the empty string included, whenever the oracle invocation
returns a non-null response, classification succeeds with a
fully-populated `ClassificationResult`; there is no `InvalidInput`
failure anywhere (the only failure after a returned response is the
`TypeError` on a null value, independent of the input text). -/
theorem classifier_total_on_ok_responses :
    ∀ (response : JVal) (text : String), ¬ response = JVal.jnull →
      ∃ r : ClassificationResult,
        classifyFeedback (fun _ => Except.ok response) text = Except.ok r := by
  intro response text h
  obtain ⟨r, hr⟩ :=
    Option.isSome_iff_exists.mp (classifyCore_isSome_of_ne_null text response h)
  exact ⟨r, by simp [classifyFeedback, hr]⟩

/-- Witness for C8 (amended): on the empty feedback text with a concrete
returned (non-null) response the classifier succeeds. -/
theorem classifier_total_on_ok_responses_witness :
    ∃ r : ClassificationResult,
      classifyFeedback (fun _ => Except.ok (JVal.jstr "")) "" = Except.ok r :=
  classifier_total_on_ok_responses (JVal.jstr "") "" (by intro h; cases h)

/-- C9: when a section text has matches of both the bullet pattern and
the numbered pattern, `extractBullets` returns every bullet-pattern match
in scan order followed by every numbered-pattern match in scan order —
bullets first regardless of where they sit in the text — and the 3/3/2
ceilings are applied only afterwards by `parseSummary`, never during
extraction. -/
theorem bullets_before_numbered_and_late_truncation :
    (∀ t : String, ¬ bulletMatchesOf t = [] → ¬ numberedMatchesOf t = [] →
        extractBullets t =
          (bulletMatchesOf t ++ numberedMatchesOf t).filter
            (fun b => b.length != 0)) ∧
    (∀ s : String,
        (parseSummary s).themes =
          (extractBullets (themesSectionText s)).take 3 ∧
        (parseSummary s).criticalIssues =
          (extractBullets (issuesSectionText s)).take 3 ∧
        (parseSummary s).recommendation =
          (extractBullets (recSectionText s)).take 2) := by
  constructor
  · intro t h1 h2
    have hne : (bulletMatchesOf t ++ numberedMatchesOf t).isEmpty = false := by
      cases hb : bulletMatchesOf t with
      | nil => exact absurd hb h1
      | cons a l => simp [List.isEmpty]
    simp [extractBullets, hne]
  · intro s
    exact ⟨rfl, rfl, rfl⟩

/-- Witness for C9: a section text whose numbered line precedes its
bullet line still yields the bullet match first. -/
theorem bullets_before_numbered_and_late_truncation_witness :
    extractBullets "1. n1\n\n• b1" =
      (bulletMatchesOf "1. n1\n\n• b1" ++ numberedMatchesOf "1. n1\n\n• b1").filter
        (fun b => b.length != 0) ∧
    extractBullets "1. n1\n\n• b1" = ["b1", "n1"] :=
  ⟨bullets_before_numbered_and_late_truncation.1 "1. n1\n\n• b1"
      (by decide) (by decide),
   by decide⟩

/-- C10: the numbered pattern is not anchored to line starts, so the line
`• fix 1. now` is matched once by the bullet pattern and once, from the
embedded `1.`, by the numbered pattern, yielding two bullets where the
second is a proper suffix of the first. -/
theorem numbered_not_anchored_double_match :
    extractBullets "• fix 1. now" = ["fix 1. now", "now"] ∧
    List.isSuffixOf "now".data "fix 1. now".data = true ∧
    ¬ ("now" : String) = "fix 1. now" := by
  refine ⟨by decide, by decide, by decide⟩

end FeedbackPipeline
